import Mathlib

/-!
Verification of the fleet-orchestration control plane of the
azure-ml-sensor-predictions repository: configuration fingerprinting,
change detection, idempotent MLTable/model registration, the training-job
monitoring loop, and the approval-gated promotion workflow.

Each definition is a shallow embedding of the corresponding Python function
(and keeps its name); the Azure CLI / SDK backends are modelled as explicit
function parameters or registry states, matching the collaborator contracts
the scripts rely on.
-/

namespace SensorPredictions

/-! ## Job Monitor (`scripts/pipeline/monitor_training_jobs.py`) -/

/-- Outcome of one `ml_client.jobs.get(job_name)` call inside the poll loop:
either the backend reports a status string, or the call raises (a transient
query error, caught by the `except` clause at line 108). -/
inductive PollOutcome where
  | status (s : String)
  | error
deriving DecidableEq

/-- The backend as seen by the monitor: for each poll round (the value of
`poll_count`) and job name, the outcome of querying that job. -/
def MonitorEnv : Type := Nat → String → PollOutcome

/-- The statuses on which the monitor removes a job from the working set:
`Completed`, or `Failed`/`Canceled` (lines 94-102). -/
def PollOutcome.isTerminal : PollOutcome → Bool
  | .status s => s = "Completed" || s = "Failed" || s = "Canceled"
  | .error => false

/-- Loop state of `monitor_training_jobs`: the working set
(`pending_job_names`), the three outcome lists, the poll counter, the
wall-clock seconds elapsed since `start_time`, and the number of
`time.sleep(poll_interval)` calls made so far. -/
structure MonitorState where
  pending : List String
  completed : List String
  failed : List String
  timeoutJobs : List String
  pollCount : Nat
  elapsed : Nat
  sleeps : Nat
deriving DecidableEq

/-- What `monitor_training_jobs` returns (lines 148-153), plus the poll and
sleep counters used to state the immediate-return property. -/
structure MonitorResult where
  completed : List String
  failed : List String
  timeoutJobs : List String
  pollCount : Nat
  sleeps : Nat
deriving DecidableEq

/-- Effect of one pass of the per-job polling loop on the working set:
who is still pending, who newly completed, who newly failed. -/
structure PollResult where
  stillPending : List String
  newlyCompleted : List String
  newlyFailed : List String
deriving DecidableEq

/-- Where one poll of a single job sends it. -/
inductive Bucket where
  | toCompleted
  | toFailed
  | keepPending
deriving DecidableEq

/-- The `if status in ['Completed'] / elif status in ['Failed','Canceled'] /
else` chain of lines 94-106, with the `except` clause of line 108: a raised
query error leaves the job pending. -/
def classify : PollOutcome → Bucket
  | .status s =>
    if s = "Completed" then .toCompleted
    else if s = "Failed" || s = "Canceled" then .toFailed
    else .keepPending
  | .error => .keepPending

/-- One pass of the `for job_name in list(pending_job_names)` loop (lines
89-109). A job leaves the working set exactly when the backend reports
`Completed` (into the completed list) or `Failed`/`Canceled` (into the
failed list); any other status, and any raised query error, keeps it
pending for the next interval. -/
def pollJobs (env : MonitorEnv) (round : Nat) : List String → PollResult
  | [] => ⟨[], [], []⟩
  | j :: rest =>
    let r := pollJobs env round rest
    match classify (env round j) with
    | .toCompleted => ⟨r.stillPending, j :: r.newlyCompleted, r.newlyFailed⟩
    | .toFailed => ⟨r.stillPending, r.newlyCompleted, j :: r.newlyFailed⟩
    | .keepPending => ⟨j :: r.stillPending, r.newlyCompleted, r.newlyFailed⟩

/-- The `while pending_job_names:` loop (lines 73-136). Per iteration:
increment `poll_count`; if the elapsed wall-clock time exceeds the maximum,
move every job still pending into the timeout list and break; otherwise poll
every pending job, break if the working set emptied, else sleep
`poll_interval` seconds and continue. Wall-clock time is modelled as
advancing by `pollInterval` per sleep; `fuel` bounds the iterations (the
totality lemma below discharges it for positive poll intervals). -/
def monitorLoop (env : MonitorEnv) (maxWaitSeconds pollInterval : Nat) :
    Nat → MonitorState → Option MonitorResult
  | 0, _ => none
  | fuel + 1, st =>
    if st.pending.isEmpty then
      some ⟨st.completed, st.failed, st.timeoutJobs, st.pollCount, st.sleeps⟩
    else
      if st.elapsed > maxWaitSeconds then
        some ⟨st.completed, st.failed, st.timeoutJobs ++ st.pending, st.pollCount + 1, st.sleeps⟩
      else
        if (pollJobs env (st.pollCount + 1) st.pending).stillPending.isEmpty then
          some ⟨st.completed ++ (pollJobs env (st.pollCount + 1) st.pending).newlyCompleted,
            st.failed ++ (pollJobs env (st.pollCount + 1) st.pending).newlyFailed,
            st.timeoutJobs, st.pollCount + 1, st.sleeps⟩
        else
          monitorLoop env maxWaitSeconds pollInterval fuel
            ⟨(pollJobs env (st.pollCount + 1) st.pending).stillPending,
              st.completed ++ (pollJobs env (st.pollCount + 1) st.pending).newlyCompleted,
              st.failed ++ (pollJobs env (st.pollCount + 1) st.pending).newlyFailed,
              st.timeoutJobs, st.pollCount + 1, st.elapsed + pollInterval, st.sleeps + 1⟩

/-- `monitor_training_jobs` (lines 23-153): with no submitted jobs return the
empty partition immediately; with distinct job names the `job_map` lookup is
the identity on names, so jobs are tracked by name. -/
def monitor_training_jobs (env : MonitorEnv) (submitted_jobs : List String)
    (pollInterval maxWaitHours fuel : Nat) : Option MonitorResult :=
  if submitted_jobs.isEmpty then some ⟨[], [], [], 0, 0⟩
  else monitorLoop env (maxWaitHours * 3600) pollInterval fuel
    ⟨submitted_jobs, [], [], [], 0, 0, 0⟩

/-- Exit-code logic of `main()` (lines 217-230): 0 when any job completed
(even if others failed or timed out), 1 when none completed but some failed
or timed out, 0 when there were no jobs at all. -/
def monitor_main_exit (result : MonitorResult) : Nat :=
  if !result.completed.isEmpty then 0
  else if !result.failed.isEmpty || !result.timeoutJobs.isEmpty then 1
  else 0

/-- `main()` of `monitor_training_jobs.py` (lines 200-235): run the monitor,
persist the full result to the output file (first component, written before
the exit code is decided), then compute the process exit code. -/
def monitor_main (env : MonitorEnv) (jobs : List String)
    (pollInterval maxWaitHours fuel : Nat) : Option (MonitorResult × Nat) :=
  (monitor_training_jobs env jobs pollInterval maxWaitHours fuel).map
    (fun r => (r, monitor_main_exit r))

/-! ### Monitor lemmas -/

/-- A poll keeps a job pending exactly when the backend did not report one
of the three terminal statuses. -/
lemma classify_keepPending_iff (o : PollOutcome) :
    classify o = .keepPending ↔ o.isTerminal = false := by
  cases o with
  | status s =>
    simp only [classify, PollOutcome.isTerminal]
    by_cases h1 : s = "Completed"
    · simp [h1]
    · by_cases h2 : s = "Failed"
      · simp [h1, h2]
      · by_cases h3 : s = "Canceled" <;> simp [h1, h2, h3]
  | error => simp [classify, PollOutcome.isTerminal]

/-- Polling one round partitions the working set: as multisets, the jobs
still pending plus those newly completed plus those newly failed are exactly
the jobs polled. -/
lemma pollJobs_multiset (env : MonitorEnv) (round : Nat) (jobs : List String) :
    (↑(pollJobs env round jobs).stillPending + ↑(pollJobs env round jobs).newlyCompleted +
      ↑(pollJobs env round jobs).newlyFailed : Multiset String) = ↑jobs := by
  induction jobs with
  | nil => simp [pollJobs]
  | cons j rest ih =>
    simp only [pollJobs]
    cases classify (env round j) <;>
      · simp only [← Multiset.cons_coe, Multiset.add_cons, Multiset.cons_add]
        rw [ih]

/-- A job whose status query raised an error is still in the working set
after the round. -/
lemma pollJobs_error_still_pending (env : MonitorEnv) (round : Nat) (jobs : List String)
    (j : String) (hj : j ∈ jobs) (he : env round j = .error) :
    j ∈ (pollJobs env round jobs).stillPending := by
  induction jobs with
  | nil => cases hj
  | cons k rest ih =>
    simp only [pollJobs]
    rcases List.mem_cons.mp hj with rfl | hmem
    · rw [he]
      simp only [classify]
      exact List.mem_cons_self _ _
    · cases classify (env round k) with
      | toCompleted => exact ih hmem
      | toFailed => exact ih hmem
      | keepPending => exact List.mem_cons_of_mem _ (ih hmem)

/-- If the backend already reports a terminal status for every polled job,
one round empties the working set. -/
lemma pollJobs_terminal_empties (env : MonitorEnv) (round : Nat) (jobs : List String)
    (h : ∀ j ∈ jobs, (env round j).isTerminal = true) :
    (pollJobs env round jobs).stillPending = [] := by
  induction jobs with
  | nil => simp [pollJobs]
  | cons j rest ih =>
    have hj := h j (List.mem_cons_self _ _)
    have hrest := ih (fun k hk => h k (List.mem_cons_of_mem _ hk))
    simp only [pollJobs]
    cases hc : classify (env round j) with
    | toCompleted => exact hrest
    | toFailed => exact hrest
    | keepPending =>
      rw [classify_keepPending_iff] at hc
      rw [hj] at hc
      cases hc

/-- Invariant of the poll loop: whatever partition it returns accounts, as a
multiset, for exactly the jobs of the starting state. -/
lemma monitorLoop_multiset (env : MonitorEnv) (mw pi : Nat) :
    ∀ (fuel : Nat) (st : MonitorState) (r : MonitorResult),
      monitorLoop env mw pi fuel st = some r →
      (↑r.completed + ↑r.failed + ↑r.timeoutJobs : Multiset String) =
        ↑st.pending + ↑st.completed + ↑st.failed + ↑st.timeoutJobs := by
  intro fuel
  induction fuel with
  | zero => intro st r h; simp [monitorLoop] at h
  | succ fuel ih =>
    intro st r h
    rw [monitorLoop] at h
    split at h
    · rename_i hp
      obtain rfl := Option.some.inj h
      rw [List.isEmpty_iff] at hp
      simp [hp]
    · split at h
      · obtain rfl := Option.some.inj h
        simp only [← Multiset.coe_add]
        abel
      · split at h
        · rename_i hempty
          obtain rfl := Option.some.inj h
          have hpoll := pollJobs_multiset env (st.pollCount + 1) st.pending
          rw [List.isEmpty_iff] at hempty
          rw [hempty] at hpoll
          simp only [Multiset.coe_nil, zero_add] at hpoll
          simp only [← Multiset.coe_add, ← hpoll]
          abel
        · have hrec := ih _ _ h
          have hpoll := pollJobs_multiset env (st.pollCount + 1) st.pending
          simp only [← Multiset.coe_add] at hrec ⊢
          rw [hrec, ← hpoll]
          abel

/-- With a positive poll interval the loop always returns: every sleep
advances the wall clock, so the timeout check eventually fires if nothing
terminates first. -/
lemma monitorLoop_total (env : MonitorEnv) (mw pi : Nat) (hpi : 1 ≤ pi) :
    ∀ (fuel : Nat) (st : MonitorState), 1 ≤ fuel → mw + 2 ≤ fuel + st.elapsed →
      (monitorLoop env mw pi fuel st).isSome = true := by
  intro fuel
  induction fuel with
  | zero => intro st h1 _; omega
  | succ fuel ih =>
    intro st _ hbound
    rw [monitorLoop]
    split
    · simp
    · split
      · simp
      · split
        · simp
        · rename_i ht hpend
          apply ih
          · omega
          · dsimp only
            omega

/-- The partition returned by `monitor_training_jobs` accounts, as a
multiset, for exactly the submitted jobs. -/
lemma monitor_multiset (env : MonitorEnv) (jobs : List String)
    (pollInterval maxWaitHours fuel : Nat) (r : MonitorResult)
    (h : monitor_training_jobs env jobs pollInterval maxWaitHours fuel = some r) :
    (↑r.completed + ↑r.failed + ↑r.timeoutJobs : Multiset String) = ↑jobs := by
  rw [monitor_training_jobs] at h
  split at h
  · rename_i hempty
    obtain rfl := Option.some.inj h
    rw [List.isEmpty_iff] at hempty
    simp [hempty]
  · have hinv := monitorLoop_multiset env (maxWaitHours * 3600) pollInterval fuel _ r h
    simpa using hinv

/-- When the submitted job names are distinct, the three outcome lists are
jointly duplicate-free. -/
lemma monitor_result_nodup (env : MonitorEnv) (jobs : List String)
    (pollInterval maxWaitHours fuel : Nat) (r : MonitorResult)
    (hnodup : jobs.Nodup)
    (h : monitor_training_jobs env jobs pollInterval maxWaitHours fuel = some r) :
    (r.completed ++ r.failed ++ r.timeoutJobs).Nodup := by
  have hm := monitor_multiset env jobs pollInterval maxWaitHours fuel r h
  have hcoe : (↑(r.completed ++ r.failed ++ r.timeoutJobs) : Multiset String).Nodup := by
    simp only [← Multiset.coe_add]
    rw [hm]
    exact Multiset.coe_nodup.mpr hnodup
  exact Multiset.coe_nodup.mp hcoe

/-! ### Claims about the Job Monitor -/

/-- C1: for any input set of N submitted jobs with distinct names, the
monitor returns a partition of the job set into completed, failed and
timed-out: the sizes sum to N, no job is omitted, and no job appears in
more than one list (nor twice in one list). Totality needs a positive poll
interval and enough loop fuel to reach the wall-clock timeout. -/
theorem monitor_partitions_jobs (env : MonitorEnv) (jobs : List String)
    (pollInterval maxWaitHours fuel : Nat)
    (hnodup : jobs.Nodup) (hpi : 1 ≤ pollInterval)
    (hfuel : maxWaitHours * 3600 + 2 ≤ fuel) :
    ∃ r, monitor_training_jobs env jobs pollInterval maxWaitHours fuel = some r ∧
      r.completed.length + r.failed.length + r.timeoutJobs.length = jobs.length ∧
      (∀ j, (j ∈ r.completed ∨ j ∈ r.failed ∨ j ∈ r.timeoutJobs) ↔ j ∈ jobs) ∧
      (r.completed ++ r.failed ++ r.timeoutJobs).Nodup := by
  have htot : (monitor_training_jobs env jobs pollInterval maxWaitHours fuel).isSome = true := by
    rw [monitor_training_jobs]
    split
    · simp
    · exact monitorLoop_total env _ _ hpi fuel _ (by omega) (by dsimp only; omega)
  obtain ⟨r, hr⟩ := Option.isSome_iff_exists.mp htot
  have hm := monitor_multiset env jobs pollInterval maxWaitHours fuel r hr
  refine ⟨r, hr, ?_, ?_, monitor_result_nodup env jobs pollInterval maxWaitHours fuel r hnodup hr⟩
  · have hcard := congrArg Multiset.card hm
    simp at hcard
    omega
  · intro j
    have hmem : j ∈ (↑r.completed + ↑r.failed + ↑r.timeoutJobs : Multiset String) ↔
        j ∈ (↑jobs : Multiset String) := by rw [hm]
    simpa [or_assoc] using hmem

/-- C1 witness: a concrete two-job run. -/
theorem monitor_partitions_jobs_witness :
    ∃ r, monitor_training_jobs (fun _ _ => PollOutcome.status "Completed") ["a", "b"]
        30 3 10802 = some r ∧
      r.completed.length + r.failed.length + r.timeoutJobs.length = (["a", "b"] : List String).length ∧
      (∀ j, (j ∈ r.completed ∨ j ∈ r.failed ∨ j ∈ r.timeoutJobs) ↔ j ∈ (["a", "b"] : List String)) ∧
      (r.completed ++ r.failed ++ r.timeoutJobs).Nodup :=
  monitor_partitions_jobs (fun _ _ => PollOutcome.status "Completed") ["a", "b"] 30 3 10802
    (by decide) (by decide) (by decide)

/-- C2: if the backend already reports a terminal status for every job on
the first poll, the monitor returns within one poll cycle (one poll, zero
sleeps) and the partition does not depend on the poll interval, the timeout
or the fuel: re-running against the same backend state gives the same
partition immediately. -/
theorem monitor_immediate_when_terminal (env : MonitorEnv) (jobs : List String)
    (pi₁ pi₂ mwh₁ mwh₂ fuel₁ fuel₂ : Nat)
    (hterm : ∀ j ∈ jobs, (env 1 j).isTerminal = true) :
    monitor_training_jobs env jobs pi₁ mwh₁ (fuel₁ + 1) =
      monitor_training_jobs env jobs pi₂ mwh₂ (fuel₂ + 1) ∧
    ∃ r, monitor_training_jobs env jobs pi₁ mwh₁ (fuel₁ + 1) = some r ∧
      r.pollCount ≤ 1 ∧ r.sleeps = 0 := by
  have key : ∀ (pi mwh fuel : Nat), monitor_training_jobs env jobs pi mwh (fuel + 1) =
      if jobs.isEmpty then some ⟨[], [], [], 0, 0⟩
      else some ⟨(pollJobs env 1 jobs).newlyCompleted, (pollJobs env 1 jobs).newlyFailed,
        [], 1, 0⟩ := by
    intro pi mwh fuel
    rw [monitor_training_jobs]
    split
    · rfl
    · rename_i hne
      rw [monitorLoop]
      have hEmpty := pollJobs_terminal_empties env 1 jobs hterm
      simp [hne, hEmpty]
  constructor
  · rw [key, key]
  · rw [key]
    by_cases hje : jobs.isEmpty
    · rw [if_pos hje]
      exact ⟨_, rfl, Nat.zero_le 1, rfl⟩
    · rw [if_neg hje]
      exact ⟨_, rfl, Nat.le_refl 1, rfl⟩

/-- C2 witness: two jobs, both already terminal, monitored with different
poll intervals, timeouts and fuel. -/
theorem monitor_immediate_when_terminal_witness :
    monitor_training_jobs
        (fun _ j => if j = "a" then PollOutcome.status "Completed" else PollOutcome.status "Failed")
        ["a", "b"] 30 3 (7 + 1) =
      monitor_training_jobs
        (fun _ j => if j = "a" then PollOutcome.status "Completed" else PollOutcome.status "Failed")
        ["a", "b"] 60 5 (9 + 1) ∧
    ∃ r, monitor_training_jobs
        (fun _ j => if j = "a" then PollOutcome.status "Completed" else PollOutcome.status "Failed")
        ["a", "b"] 30 3 (7 + 1) = some r ∧ r.pollCount ≤ 1 ∧ r.sleeps = 0 :=
  monitor_immediate_when_terminal
    (fun _ j => if j = "a" then PollOutcome.status "Completed" else PollOutcome.status "Failed")
    ["a", "b"] 30 60 3 5 7 9 (by decide)

/-- C3: (a) once the elapsed wall-clock time exceeds the configured maximum,
the loop moves every job still in the working set into the timed-out list —
leaving the failed list untouched — and exits immediately, regardless of
remaining fuel; (b) with distinct job names no timed-out job ever appears
in the failed list; (c) a transient per-job query error never removes that
job from the working set. -/
theorem monitor_timeout_behavior :
    (∀ (env : MonitorEnv) (mw pi fuel : Nat) (st : MonitorState),
      st.pending ≠ [] → st.elapsed > mw →
      monitorLoop env mw pi (fuel + 1) st =
        some ⟨st.completed, st.failed, st.timeoutJobs ++ st.pending,
          st.pollCount + 1, st.sleeps⟩) ∧
    (∀ (env : MonitorEnv) (jobs : List String) (pollInterval maxWaitHours fuel : Nat)
      (r : MonitorResult), jobs.Nodup →
      monitor_training_jobs env jobs pollInterval maxWaitHours fuel = some r →
      ∀ j ∈ r.timeoutJobs, j ∉ r.failed) ∧
    (∀ (env : MonitorEnv) (round : Nat) (jobs : List String) (j : String),
      j ∈ jobs → env round j = .error → j ∈ (pollJobs env round jobs).stillPending) := by
  refine ⟨?_, ?_, pollJobs_error_still_pending⟩
  · intro env mw pi fuel st hne ht
    rw [monitorLoop]
    rw [if_neg (by simpa [List.isEmpty_iff] using hne), if_pos ht]
  · intro env jobs pollInterval maxWaitHours fuel r hnodup h j hjt
    have hnd := monitor_result_nodup env jobs pollInterval maxWaitHours fuel r hnodup h
    rw [List.append_assoc] at hnd
    have hft : (r.failed ++ r.timeoutJobs).Nodup := hnd.of_append_right
    have hdisj := List.disjoint_of_nodup_append hft
    exact fun hjf => hdisj.symm hjt hjf

/-- C3 witness: a state already over the deadline with two pending jobs. -/
theorem monitor_timeout_behavior_witness :
    monitorLoop (fun _ _ => PollOutcome.error) 10 30 (4 + 1)
        ⟨["a", "b"], ["c"], ["d"], [], 2, 11, 2⟩ =
      some ⟨["c"], ["d"], [] ++ ["a", "b"], 2 + 1, 2⟩ :=
  monitor_timeout_behavior.1 (fun _ _ => PollOutcome.error) 10 30 4
    ⟨["a", "b"], ["c"], ["d"], [], 2, 11, 2⟩ (by decide) (by decide)

/-! ## Config hashing and change detection
(`tests/test_config_hash.py`, `scripts/generate_circuit_configs.py`,
`scripts/pipeline/submit_training_jobs.py`,
`scripts/pipeline/detect_changed_circuits.py`)

The MD5 digest (external `hashlib`) is a parameter `digest`: every property
proved here holds for any digest function, in particular for MD5. Python's
`sorted` and `str.strip` are modelled by structurally recursive equivalents
(code-point insertion sort, whitespace trimming) so that concrete instances
evaluate. -/

/-- Python string comparison: lexicographic on code points. -/
def strLeChars : List Char → List Char → Bool
  | [], _ => true
  | _ :: _, [] => false
  | x :: xs, y :: ys =>
    if x.toNat < y.toNat then true
    else if y.toNat < x.toNat then false
    else strLeChars xs ys

/-- `a <= b` on Python strings. -/
def pyStrLe (a b : String) : Bool := strLeChars a.data b.data

/-- Insert into a list sorted by a string key. -/
def insertByKey {α : Type} (key : α → String) (a : α) : List α → List α
  | [] => [a]
  | b :: rest => if pyStrLe (key a) (key b) then a :: b :: rest else b :: insertByKey key a rest

/-- Python's `sorted(l, key=key)` (insertion sort by a string key). -/
def sortByKey {α : Type} (key : α → String) (l : List α) : List α :=
  l.foldr (insertByKey key) []

/-- Python's `sorted` on a list of strings. -/
def pySorted (l : List String) : List String := sortByKey (fun s => s) l

/-- Python's `str.strip()`: drop leading and trailing whitespace. -/
def pyStrip (s : String) : String :=
  ⟨((s.data.dropWhile Char.isWhitespace).reverse.dropWhile Char.isWhitespace).reverse⟩

/-- A scalar YAML value of the circuit configuration files. -/
inductive YLeaf where
  | s (v : String)
  | i (v : Int)
deriving DecidableEq

/-- A YAML value of the circuit configuration files: a scalar, a list of
scalars (the feature list), or a mapping of scalars (hyperparameters,
metadata). -/
inductive YVal where
  | leaf (v : YLeaf)
  | seq (items : List YLeaf)
  | map (entries : List (String × YLeaf))
deriving DecidableEq

/-- Rendering of a scalar. -/
def dumpLeaf : YLeaf → String
  | .s v => v
  | .i n => toString n

/-- Canonical rendering of one YAML value with mapping keys sorted, standing
for the relevant part of `yaml.dump(..., sort_keys=True,
default_flow_style=False)`. -/
def dumpVal : YVal → String
  | .leaf l => dumpLeaf l
  | .seq xs => String.join (xs.map (fun x => "- " ++ dumpLeaf x ++ "\n"))
  | .map es => String.join ((sortByKey (fun kv => kv.1) es).map
      (fun kv => kv.1 ++ ": " ++ dumpLeaf kv.2 ++ "\n"))

/-- `yaml.dump(config, sort_keys=True, default_flow_style=False)` on a
top-level configuration mapping: entries sorted by key, rendered in order. -/
def yaml_dump (cfg : List (String × YVal)) : String :=
  String.join ((sortByKey (fun kv => kv.1) cfg).map
    (fun kv => kv.1 ++ ": " ++ dumpVal kv.2 ++ "\n"))

/-- `generate_config_hash` (tests/test_config_hash.py lines 16-31, matching
scripts/generate_circuit_configs.py): drop the `metadata` entry, serialize
with sorted keys, digest, truncate to 12 characters. -/
def generate_config_hash (digest : String → String) (config_dict : List (String × YVal)) :
    String :=
  let config_copy := config_dict.filter (fun kv => kv.1 ≠ "metadata")
  (digest (yaml_dump config_copy)).take 12

/-- One entry of `config/circuits.yaml` merged with its circuit-specific
config file, with the fields the pipeline scripts read via `.get` (absent
optional fields are `none`; the scripts' `.get` defaults are applied at the
point of use, mirroring the Python). -/
structure CircuitCfg where
  plant_id : String
  circuit_id : String
  model_name : Option String
  features : List String
  cutoff_date : String
  delta_version : Option Int
  environment_version : Option String
  hyperparameters : List (String × String)
deriving DecidableEq

/-- `calculate_training_hash` (submit_training_jobs.py lines 24-46):
`sorted(features)` joined by commas, cutoff date, delta version (default 0),
environment version (default `1.0.0`), sorted `k=v` hyperparameters, joined
with `|`, digested and truncated to 8 characters. -/
def calculate_training_hash (digest : String → String) (circuit_cfg : CircuitCfg) : String :=
  let feature_str := String.intercalate "," (pySorted circuit_cfg.features)
  let cutoff_date := circuit_cfg.cutoff_date
  let delta_version := circuit_cfg.delta_version.getD 0
  let environment_version := circuit_cfg.environment_version.getD "1.0.0"
  let hyperparam_str := String.intercalate ","
    ((sortByKey (fun kv => kv.1) circuit_cfg.hyperparameters).map
      (fun kv => kv.1 ++ "=" ++ kv.2))
  (digest (feature_str ++ "|" ++ cutoff_date ++ "|" ++ toString delta_version ++ "|" ++
    environment_version ++ "|" ++ hyperparam_str)).take 8

/-- Python `f"{v}"` on an optional integer (`None` renders as `None`). -/
def pyOptIntStr : Option Int → String
  | some n => toString n
  | none => "None"

/-- The MLTable data-fingerprint of `register_mltables`
(detect_changed_circuits.py lines 131-145): only features, cutoff date and
delta version — never hyperparameters, environment version or any other
field. -/
def mltable_config_hash (digest : String → String) (circuit : CircuitCfg) : String :=
  let feature_str := String.intercalate "," (pySorted circuit.features)
  (digest (feature_str ++ "|" ++ circuit.cutoff_date ++ "|" ++
    pyOptIntStr circuit.delta_version)).take 8

/-! ### Claim C4: fingerprint field isolation -/

/-- C4: adding fields outside the declared field set never changes the
fingerprint. For `generate_config_hash` the declared set is every field
except the bookkeeping `metadata` sub-structure, so appending a `metadata`
entry leaves the hash unchanged; for the data fingerprint of
`register_mltables` the declared set is features + cutoff date + delta
version, so two configs agreeing there hash identically no matter how their
other fields differ. Both hold for every digest function. -/
theorem fingerprint_field_isolation :
    (∀ (digest : String → String) (cfg : List (String × YVal)) (v : YVal),
      generate_config_hash digest (cfg ++ [("metadata", v)]) =
        generate_config_hash digest cfg) ∧
    (∀ (digest : String → String) (c₁ c₂ : CircuitCfg),
      c₁.features = c₂.features → c₁.cutoff_date = c₂.cutoff_date →
      c₁.delta_version = c₂.delta_version →
      mltable_config_hash digest c₁ = mltable_config_hash digest c₂) := by
  constructor
  · intro digest cfg v
    simp [generate_config_hash, List.filter_append]
  · intro digest c₁ c₂ hf hc hd
    simp [mltable_config_hash, hf, hc, hd]

/-- C4 witness: the Mltable fingerprint of two configs that differ only in
hyperparameters, environment version and model name coincides. -/
theorem fingerprint_field_isolation_witness :
    mltable_config_hash (fun s => s)
        ⟨"P1", "C1", none, ["f1"], "2025-01-01", some 3, none, [("lr", "0.1")]⟩ =
      mltable_config_hash (fun s => s)
        ⟨"P1", "C1", some "other", ["f1"], "2025-01-01", some 3, some "2.0.0", [("lr", "0.9")]⟩ :=
  fingerprint_field_isolation.2 (fun s => s) _ _ rfl rfl rfl

/-! ## Change Detector backend (`submit_training_jobs.py`) -/

/-- A model version in the workspace model registry, with its
`training_hash` tag (absent if the version was registered without one). -/
structure RegisteredModel where
  name : String
  version : Nat
  training_hash : Option String
deriving DecidableEq

/-- Result of a `subprocess.run` of the az CLI: return code and stdout. -/
structure AzResult where
  returncode : Int
  stdout : String
deriving DecidableEq

/-- `az ml model list --name N --query [0].tags.training_hash -o tsv`
against a registry state listed most-recent-version-first (as the CLI
returns): stdout holds the latest version's tag, empty when the model or
the tag is absent; return code 0. -/
def az_model_list_hash (registry : List RegisteredModel) (model_name : String) : AzResult :=
  match (registry.filter (fun m => m.name = model_name)).head? with
  | some m => ⟨0, m.training_hash.getD ""⟩
  | none => ⟨0, ""⟩

/-- `get_last_model_training_hash` (submit_training_jobs.py lines 49-77):
return the stripped stdout when the CLI call succeeded and printed
something, otherwise `None` — the same `None` for "no model exists" and for
a failed query. -/
def get_last_model_training_hash (az : String → AzResult) (model_name : String) :
    Option String :=
  let result := az model_name
  if result.returncode = 0 ∧ pyStrip result.stdout ≠ "" then some (pyStrip result.stdout)
  else none

/-- `model_name = circuit.get('model_name', f'{plant_id.lower()}-{circuit_id.lower()}')`
(line 103). -/
def model_name_for (circuit : CircuitCfg) : String :=
  circuit.model_name.getD (circuit.plant_id.toLower ++ "-" ++ circuit.circuit_id.toLower)

/-- The per-circuit decision of `determine_circuits_to_train`
(submit_training_jobs.py lines 100-138): train when the fresh hash differs
from the last model's hash, or when no last hash was obtained. -/
def needs_training (digest : String → String) (az : String → AzResult)
    (circuit : CircuitCfg) : Bool :=
  let current_hash := calculate_training_hash digest circuit
  match get_last_model_training_hash az (model_name_for circuit) with
  | some last_hash => current_hash != last_hash
  | none => true

/-- A record appended to `circuits_to_train` (lines 123-128 and 133-138). -/
structure TrainCandidate where
  plant_id : String
  circuit_id : String
  model_name : String
  training_hash : String
deriving DecidableEq

/-- `determine_circuits_to_train` (lines 80-147): keep exactly the circuits
whose decision is "needs training", carrying name and fresh hash. -/
def determine_circuits_to_train (digest : String → String) (az : String → AzResult)
    (circuits : List CircuitCfg) : List TrainCandidate :=
  (circuits.filter (fun c => needs_training digest az c)).map
    (fun c => ⟨c.plant_id, c.circuit_id, model_name_for c, calculate_training_hash digest c⟩)

/-- The Change Detector contract of spec section 4.2, stated from the
spec's words: the fingerprint recorded on the unit's most recently
registered model, absent if none exists. -/
def lastKnownFingerprint (registry : List RegisteredModel) (model_name : String) :
    Option String :=
  ((registry.filter (fun m => m.name = model_name)).head?).bind (fun m => m.training_hash)

/-- Stripping the empty stdout yields the empty string. -/
lemma pyStrip_empty : pyStrip "" = "" := rfl

/-! ### Claims C5 and C6: the change-detection decision -/

/-- C5: against a working registry backend whose recorded hash tags are
well-formed (whitespace-free and nonempty, as the 8-hex-character MD5
prefixes written by the pipeline are), the train decision is true exactly
when the freshly computed fingerprint differs from the fingerprint on the
most recently registered model; and when no such fingerprint exists the
unit is always classified as needing training, so the first run trains. -/
theorem needs_training_iff_hash_differs (digest : String → String)
    (registry : List RegisteredModel) (circuit : CircuitCfg)
    (hclean : ∀ m ∈ registry,
      pyStrip (m.training_hash.getD "") = m.training_hash.getD "" ∧
      m.training_hash ≠ some "") :
    (needs_training digest (az_model_list_hash registry) circuit = true ↔
      (match lastKnownFingerprint registry (model_name_for circuit) with
       | some h => calculate_training_hash digest circuit ≠ h
       | none => True)) ∧
    (lastKnownFingerprint registry (model_name_for circuit) = none →
      needs_training digest (az_model_list_hash registry) circuit = true) := by
  have main : needs_training digest (az_model_list_hash registry) circuit = true ↔
      (match lastKnownFingerprint registry (model_name_for circuit) with
       | some h => calculate_training_hash digest circuit ≠ h
       | none => True) := by
    cases hf : registry.filter (fun m => m.name = model_name_for circuit) with
    | nil =>
      simp [needs_training, get_last_model_training_hash, az_model_list_hash,
        lastKnownFingerprint, hf, pyStrip_empty]
    | cons m rest =>
      have hm : m ∈ registry := (List.mem_filter.mp (hf ▸ List.mem_cons_self m rest)).1
      obtain ⟨hstrip, hnes⟩ := hclean m hm
      cases ht : m.training_hash with
      | none =>
        simp [needs_training, get_last_model_training_hash, az_model_list_hash,
          lastKnownFingerprint, hf, ht, pyStrip_empty]
      | some h =>
        have hh : h ≠ "" := by
          intro he
          exact hnes (by rw [ht, he])
        have hstrip' : pyStrip h = h := by
          rw [ht] at hstrip
          simpa using hstrip
        simp [needs_training, get_last_model_training_hash, az_model_list_hash,
          lastKnownFingerprint, hf, ht, hstrip', hh, bne_iff_ne]
  exact ⟨main, fun hnone => main.mpr (by rw [hnone]; trivial)⟩

/-- C5 witness: one registered model whose hash tag differs from the fresh
fingerprint. -/
theorem needs_training_iff_hash_differs_witness :
    (needs_training (fun s => s) (az_model_list_hash [⟨"m1", 1, some "abcd1234"⟩])
        ⟨"P1", "C1", some "m1", ["f"], "2025-01-01", some 1, none, []⟩ = true ↔
      (match lastKnownFingerprint [⟨"m1", 1, some "abcd1234"⟩]
          (model_name_for ⟨"P1", "C1", some "m1", ["f"], "2025-01-01", some 1, none, []⟩) with
       | some h => calculate_training_hash (fun s => s)
          ⟨"P1", "C1", some "m1", ["f"], "2025-01-01", some 1, none, []⟩ ≠ h
       | none => True)) ∧
    (lastKnownFingerprint [⟨"m1", 1, some "abcd1234"⟩]
        (model_name_for ⟨"P1", "C1", some "m1", ["f"], "2025-01-01", some 1, none, []⟩) = none →
      needs_training (fun s => s) (az_model_list_hash [⟨"m1", 1, some "abcd1234"⟩])
        ⟨"P1", "C1", some "m1", ["f"], "2025-01-01", some 1, none, []⟩ = true) :=
  needs_training_iff_hash_differs (fun s => s) [⟨"m1", 1, some "abcd1234"⟩]
    ⟨"P1", "C1", some "m1", ["f"], "2025-01-01", some 1, none, []⟩ (by decide)

/-- C6 (evidence for the code bug): a transient CLI failure (nonzero return
code) makes `get_last_model_training_hash` return `None`, bit-for-bit the
same outcome as "no model registered", and the detector then classifies the
unit as needing training — no distinguishable query-failure error is
surfaced, contradicting both the function's own docstring ("None if no
model exists") and the spec's edge-case policy. -/
theorem transient_query_failure_indistinguishable :
    get_last_model_training_hash (fun _ => ⟨1, "deadbeef"⟩) "m1" = none ∧
    get_last_model_training_hash (fun _ => ⟨1, "deadbeef"⟩) "m1" =
      get_last_model_training_hash (az_model_list_hash []) "m1" ∧
    needs_training (fun s => s) (fun _ => ⟨1, "deadbeef"⟩)
      ⟨"P1", "C1", some "m1", ["f"], "2025-01-01", some 1, none, []⟩ = true := by
  refine ⟨rfl, rfl, ?_⟩
  rfl

/-! ## Resource Registrar (`scripts/pipeline/detect_changed_circuits.py`)

The data-asset registry backend (`az ml data list` / `az ml data create`) is
modelled as explicit state: a list of (name, version) entries ordered most
recent first, as the CLI's `[0]`-indexed queries assume; `create` assigns
the next version number for the name. Backend calls are modelled as
succeeding (the claims concern the registrar's check-then-create logic, not
backend outages). -/

/-- One registered MLTable version with its `config_hash` tag. -/
structure DataVersion where
  version : Nat
  config_hash : String
deriving DecidableEq

/-- The workspace data-asset registry: (asset name, version) entries, most
recent version first. -/
structure DataRegistry where
  assets : List (String × DataVersion)
deriving DecidableEq

/-- `az ml data list --name N --query "[?tags.config_hash=='H']..."`
(lines 156-169): the versions of `N` tagged with hash `H`, newest first. -/
def data_list_matching (reg : DataRegistry) (data_name config_hash : String) :
    List DataVersion :=
  (reg.assets.filter (fun e => e.1 = data_name ∧ e.2.config_hash = config_hash)).map
    (fun e => e.2)

/-- The version number `az ml data create` assigns to a new version of
`data_name`: one past the highest existing version. -/
def data_next_version (reg : DataRegistry) (data_name : String) : Nat :=
  ((reg.assets.filter (fun e => e.1 = data_name)).map (fun e => e.2.version)).foldr max 0 + 1

/-- What a `registerIfNew` call reports: whether a version was created, and
which version now carries the fingerprint. -/
structure RegisterOutcome where
  created : Bool
  version : Nat
deriving DecidableEq

/-- The check-then-create core of `register_mltables` for one asset
(lines 155-229): query versions of `data_name` tagged with `config_hash`;
if one exists return it unchanged, otherwise create a new version tagged
with the hash. -/
def register_mltable_step (reg : DataRegistry) (data_name config_hash : String) :
    RegisterOutcome × DataRegistry :=
  match (data_list_matching reg data_name config_hash).head? with
  | some existing => (⟨false, existing.version⟩, reg)
  | none =>
    let v := data_next_version reg data_name
    (⟨true, v⟩, ⟨(data_name, ⟨v, config_hash⟩) :: reg.assets⟩)

/-- Creating a version tagged with a hash makes it the first match for that
name and hash. -/
lemma data_list_matching_cons (reg : DataRegistry) (data_name config_hash : String) (v : Nat) :
    data_list_matching ⟨(data_name, ⟨v, config_hash⟩) :: reg.assets⟩ data_name config_hash =
      ⟨v, config_hash⟩ :: data_list_matching reg data_name config_hash := by
  simp [data_list_matching]

/-- C7: registration is idempotent on name + fingerprint. Calling the
check-then-create step twice with the same name and hash yields
`created = false` on the second call, the identical version the first call
produced, and an unchanged registry — never a second version for that
fingerprint. -/
theorem register_if_new_idempotent (reg : DataRegistry) (data_name config_hash : String) :
    (register_mltable_step (register_mltable_step reg data_name config_hash).2
        data_name config_hash).1.created = false ∧
    (register_mltable_step (register_mltable_step reg data_name config_hash).2
        data_name config_hash).1.version =
      (register_mltable_step reg data_name config_hash).1.version ∧
    (register_mltable_step (register_mltable_step reg data_name config_hash).2
        data_name config_hash).2 =
      (register_mltable_step reg data_name config_hash).2 := by
  cases hm : (data_list_matching reg data_name config_hash).head? with
  | some existing => simp [register_mltable_step, hm]
  | none => simp [register_mltable_step, hm, data_list_matching_cons]

/-! ## Full registration stage (for the batch exit status, claim C9) -/

/-- Which of a circuit's local files exist: its per-circuit config YAML
(line 122) and its generated `MLTable` file (line 185). -/
structure CircuitFiles where
  configExists : Bool
  mltableExists : Bool
deriving DecidableEq

/-- `data_name = f"{plant_id}_{circuit_id}"` (line 153). -/
def data_name_for (c : CircuitCfg) : String := c.plant_id ++ "_" ++ c.circuit_id

/-- A record appended to `changed_circuits` (lines 237-243). -/
structure ChangedCircuit where
  plant_id : String
  circuit_id : String
  mltable_name : String
  mltable_version : Nat
deriving DecidableEq

/-- The loop body of `register_mltables` for one circuit (lines 110-243)
under a working az backend: its registration outcome, the updated registry,
and whether this circuit failed (missing circuit config, or missing local
MLTable file — the two `failed = True; continue` paths). A matching
existing hash is a skip, not a failure. -/
def register_circuit (digest : String → String) (files : String → CircuitFiles)
    (reg : DataRegistry) (c : CircuitCfg) : Option ChangedCircuit × DataRegistry × Bool :=
  let data_name := data_name_for c
  if ¬ (files data_name).configExists then (none, reg, true)
  else
    let config_hash := mltable_config_hash digest c
    if (data_list_matching reg data_name config_hash).head?.isSome then (none, reg, false)
    else if ¬ (files data_name).mltableExists then (none, reg, true)
    else
      let out := register_mltable_step reg data_name config_hash
      (some ⟨c.plant_id, c.circuit_id, data_name, out.1.version⟩, out.2, false)

/-- Accumulation over the circuit loop: registered circuits so far, registry
state, and the sticky `failed` flag. -/
def register_fold_step (digest : String → String) (files : String → CircuitFiles)
    (acc : List ChangedCircuit × DataRegistry × Bool) (c : CircuitCfg) :
    List ChangedCircuit × DataRegistry × Bool :=
  let step := register_circuit digest files acc.2.1 c
  (acc.1 ++ step.1.toList, step.2.1, acc.2.2 || step.2.2)

/-- `register_mltables` (lines 85-255): process every circuit, then raise
`RuntimeError("Some MLTable registrations failed")` if any circuit failed,
else return the circuits for which a new MLTable version was registered. -/
def register_mltables (digest : String → String) (files : String → CircuitFiles)
    (circuits : List CircuitCfg) (reg : DataRegistry) :
    Except String (List ChangedCircuit × DataRegistry) :=
  let final := circuits.foldl (register_fold_step digest files) (([] : List ChangedCircuit), reg, false)
  if final.2.2 then Except.error "Some MLTable registrations failed"
  else Except.ok (final.1, final.2.1)

/-- Exit code of `main()` in detect_changed_circuits.py (lines 282-308):
0 when `register_mltables` returns, 1 when it raises. -/
def detect_changed_circuits_main_exit
    (res : Except String (List ChangedCircuit × DataRegistry)) : Nat :=
  match res with
  | .ok _ => 0
  | .error _ => 1

/-- The sticky failure flag never resets during the fold. -/
lemma register_fold_flag_mono (digest : String → String) (files : String → CircuitFiles)
    (circuits : List CircuitCfg) (acc : List ChangedCircuit × DataRegistry × Bool)
    (h : acc.2.2 = true) :
    (circuits.foldl (register_fold_step digest files) acc).2.2 = true := by
  induction circuits generalizing acc with
  | nil => exact h
  | cons c rest ih =>
    apply ih
    simp [register_fold_step, h]

/-- A circuit whose config file is missing always raises the failure flag. -/
lemma register_fold_flag_of_missing_config (digest : String → String)
    (files : String → CircuitFiles) (circuits : List CircuitCfg)
    (c : CircuitCfg) (hc : c ∈ circuits)
    (hmiss : (files (data_name_for c)).configExists = false) :
    ∀ acc, (circuits.foldl (register_fold_step digest files) acc).2.2 = true := by
  induction circuits with
  | nil => cases hc
  | cons d rest ih =>
    intro acc
    rcases List.mem_cons.mp hc with rfl | hmem
    · rw [List.foldl_cons]
      apply register_fold_flag_mono
      simp [register_fold_step, register_circuit, hmiss]
    · exact ih hmem _

/-- A circuit whose files are all present never raises the failure flag. -/
lemma register_circuit_ok_no_flag (digest : String → String) (files : String → CircuitFiles)
    (reg : DataRegistry) (c : CircuitCfg)
    (hcfg : (files (data_name_for c)).configExists = true)
    (hml : (files (data_name_for c)).mltableExists = true) :
    (register_circuit digest files reg c).2.2 = false := by
  by_cases hm : (data_list_matching reg (data_name_for c) (mltable_config_hash digest c)).head?.isSome
  · simp [register_circuit, hcfg, hml, hm]
  · simp [register_circuit, hcfg, hml, hm]

/-! ## Promotion Gate (`scripts/pipeline/promote_models_individually.py`)

The target registry (`az ml model show` / `az ml model create
--registry-name ...`) is modelled as explicit state; the approval file
`approval_status.json` as an optional association list (absent file =
`none`). Backend calls are modelled as succeeding, so the `failed` branch
of `promote_model` (a rejected `az ml model create`) is unreachable here;
the claims concern the gate's approval and idempotency logic. -/

/-- Python `f"{v}"` on an optional string (`None` renders as `None`). -/
def pyOptStr : Option String → String
  | some s => s
  | none => "None"

/-- One entry of a registered-models file: the fields `promote_model` reads
(lines 77-82); `training_hash` is the resolved
`model.get('training_hash', model.get('config_hash'))`. -/
structure ModelInfo where
  model_name : String
  version : String
  plant_id : String
  circuit_id : String
  cutoff_date : String
  training_hash : Option String
deriving DecidableEq

/-- A model copied into the target registry, with its lineage tags. -/
structure PromotedEntry where
  name : String
  version : String
  tags : List (String × String)
deriving DecidableEq

/-- The shared target model registry. -/
structure TargetRegistry where
  models : List PromotedEntry
deriving DecidableEq

/-- `az ml model show --name N --version V --registry-name R` succeeds
(return code 0) exactly when the registry holds that name+version. -/
def registry_has (reg : TargetRegistry) (name version : String) : Bool :=
  reg.models.any (fun e => e.name = name ∧ e.version = version)

/-- `az ml model create` into the registry with the lineage tags of
lines 120-133. -/
def registry_create (reg : TargetRegistry) (m : ModelInfo) : TargetRegistry :=
  ⟨⟨m.model_name, m.version,
    [("plant_id", m.plant_id), ("circuit_id", m.circuit_id),
     ("cutoff_date", m.cutoff_date), ("training_hash", pyOptStr m.training_hash),
     ("promoted_from", "dev")]⟩ :: reg.models⟩

/-- `check_approval_status` (lines 26-60): with an approval file, look up
`f"{plant_id}:{model_name}:{version}"` defaulting to `pending`; `approved`
passes, `rejected` fails, anything else fails; with no approval file,
auto-approve. -/
def check_approval_status (approval_file : Option (List (String × String)))
    (plant_id model_name version : String) : Bool :=
  match approval_file with
  | some approvals =>
    let model_key := plant_id ++ ":" ++ model_name ++ ":" ++ version
    let status := (approvals.lookup model_key).getD "pending"
    if status = "approved" then true
    else if status = "rejected" then false
    else false
  | none => true

/-- Promotion outcomes (`status` field of the returned dict). -/
inductive PromoStatus where
  | promoted
  | already_exists
  | pending_approval
  | failed
deriving DecidableEq

/-- The dict `promote_model` returns: identity fields always; the
`training_hash` key only on the `promoted` path, the `error` key only on
the `failed` path (absent keys are `none`). -/
structure PromotionResult where
  model_name : String
  version : String
  plant_id : String
  training_hash : Option String
  error : Option String
  status : PromoStatus
deriving DecidableEq

/-- `promote_model` (lines 63-162) under a working backend: gate on the
approval check (not approved → `pending_approval`, registry untouched);
then on existence in the target registry (`already_exists`, registry
untouched); otherwise copy the model across with lineage tags
(`promoted`). -/
def promote_model (approval_file : Option (List (String × String)))
    (reg : TargetRegistry) (m : ModelInfo) : PromotionResult × TargetRegistry :=
  if ¬ check_approval_status approval_file m.plant_id m.model_name m.version then
    (⟨m.model_name, m.version, m.plant_id, none, none, .pending_approval⟩, reg)
  else if registry_has reg m.model_name m.version then
    (⟨m.model_name, m.version, m.plant_id, none, none, .already_exists⟩, reg)
  else
    (⟨m.model_name, m.version, m.plant_id, m.training_hash, none, .promoted⟩,
      registry_create reg m)

/-- A freshly copied model is found by the existence check. -/
lemma registry_create_has (reg : TargetRegistry) (m : ModelInfo) :
    registry_has (registry_create reg m) m.model_name m.version = true := by
  simp [registry_has, registry_create]

/-! ### Claim C8: promotion idempotency -/

/-- C8: for an approved model, promoting the same name+version twice yields
`already_exists` the second time with no error recorded, the target
registry is not written again (the state after the second run is the state
after the first), and the identity fields of the promotion record are those
of the first run. -/
theorem promote_model_idempotent (approval_file : Option (List (String × String)))
    (reg : TargetRegistry) (m : ModelInfo)
    (happr : check_approval_status approval_file m.plant_id m.model_name m.version = true) :
    (promote_model approval_file (promote_model approval_file reg m).2 m).1.status =
        PromoStatus.already_exists ∧
    (promote_model approval_file (promote_model approval_file reg m).2 m).1.error = none ∧
    (promote_model approval_file (promote_model approval_file reg m).2 m).2 =
      (promote_model approval_file reg m).2 ∧
    (promote_model approval_file (promote_model approval_file reg m).2 m).1.model_name =
      (promote_model approval_file reg m).1.model_name ∧
    (promote_model approval_file (promote_model approval_file reg m).2 m).1.version =
      (promote_model approval_file reg m).1.version ∧
    (promote_model approval_file (promote_model approval_file reg m).2 m).1.plant_id =
      (promote_model approval_file reg m).1.plant_id := by
  by_cases hhas : registry_has reg m.model_name m.version
  · simp [promote_model, happr, hhas]
  · simp [promote_model, happr, hhas, registry_create_has]

/-- C8 witness: promoting a concrete model twice into an empty registry
with no approval file configured (auto-approve). -/
theorem promote_model_idempotent_witness :
    (promote_model none (promote_model none ⟨[]⟩
        ⟨"m1", "1", "P1", "C1", "2025-01-01", some "abcd1234"⟩).2
        ⟨"m1", "1", "P1", "C1", "2025-01-01", some "abcd1234"⟩).1.status =
        PromoStatus.already_exists ∧
    (promote_model none (promote_model none ⟨[]⟩
        ⟨"m1", "1", "P1", "C1", "2025-01-01", some "abcd1234"⟩).2
        ⟨"m1", "1", "P1", "C1", "2025-01-01", some "abcd1234"⟩).1.error = none ∧
    (promote_model none (promote_model none ⟨[]⟩
        ⟨"m1", "1", "P1", "C1", "2025-01-01", some "abcd1234"⟩).2
        ⟨"m1", "1", "P1", "C1", "2025-01-01", some "abcd1234"⟩).2 =
      (promote_model none ⟨[]⟩ ⟨"m1", "1", "P1", "C1", "2025-01-01", some "abcd1234"⟩).2 ∧
    (promote_model none (promote_model none ⟨[]⟩
        ⟨"m1", "1", "P1", "C1", "2025-01-01", some "abcd1234"⟩).2
        ⟨"m1", "1", "P1", "C1", "2025-01-01", some "abcd1234"⟩).1.model_name =
      (promote_model none ⟨[]⟩ ⟨"m1", "1", "P1", "C1", "2025-01-01", some "abcd1234"⟩).1.model_name ∧
    (promote_model none (promote_model none ⟨[]⟩
        ⟨"m1", "1", "P1", "C1", "2025-01-01", some "abcd1234"⟩).2
        ⟨"m1", "1", "P1", "C1", "2025-01-01", some "abcd1234"⟩).1.version =
      (promote_model none ⟨[]⟩ ⟨"m1", "1", "P1", "C1", "2025-01-01", some "abcd1234"⟩).1.version ∧
    (promote_model none (promote_model none ⟨[]⟩
        ⟨"m1", "1", "P1", "C1", "2025-01-01", some "abcd1234"⟩).2
        ⟨"m1", "1", "P1", "C1", "2025-01-01", some "abcd1234"⟩).1.plant_id =
      (promote_model none ⟨[]⟩ ⟨"m1", "1", "P1", "C1", "2025-01-01", some "abcd1234"⟩).1.plant_id :=
  promote_model_idempotent none ⟨[]⟩ ⟨"m1", "1", "P1", "C1", "2025-01-01", some "abcd1234"⟩ rfl

/-! ### Claim C10: the approval policy -/

/-- C10 counterexample: with an approval file whose key is present and
marked `rejected` — neither absent nor `pending` — `promote_model` still
reports `pending_approval`, refuting "pending_approval only when the key is
absent or marked pending". -/
theorem rejected_key_reports_pending_approval :
    (promote_model (some [("P1:m1:1", "rejected")]) ⟨[]⟩
        ⟨"m1", "1", "P1", "C1", "2025-01-01", some "h"⟩).1.status =
      PromoStatus.pending_approval ∧
    List.lookup "P1:m1:1" [("P1:m1:1", "rejected")] = some "rejected" := by
  exact ⟨rfl, rfl⟩

/-- C10 (amended): with no approval file every model is auto-approved and
promotion proceeds (`already_exists` or `promoted`); with an approval file,
a model is classified `pending_approval` exactly when its key's status is
anything other than `approved` (absent — which defaults to `pending` —,
`pending`, `rejected`, or unrecognized); and whenever the gate reports
`pending_approval` the target registry is left untouched. -/
theorem approval_policy_characterization :
    (∀ (p n v : String), check_approval_status none p n v = true) ∧
    (∀ (reg : TargetRegistry) (m : ModelInfo),
      (promote_model none reg m).1.status = PromoStatus.already_exists ∨
      (promote_model none reg m).1.status = PromoStatus.promoted) ∧
    (∀ (approvals : List (String × String)) (reg : TargetRegistry) (m : ModelInfo),
      ((promote_model (some approvals) reg m).1.status = PromoStatus.pending_approval ↔
        (approvals.lookup (m.plant_id ++ ":" ++ m.model_name ++ ":" ++ m.version)).getD
          "pending" ≠ "approved")) ∧
    (∀ (approval_file : Option (List (String × String))) (reg : TargetRegistry)
      (m : ModelInfo),
      (promote_model approval_file reg m).1.status = PromoStatus.pending_approval →
      (promote_model approval_file reg m).2 = reg) := by
  refine ⟨fun _ _ _ => rfl, ?_, ?_, ?_⟩
  · intro reg m
    by_cases hhas : registry_has reg m.model_name m.version
    · left; simp [promote_model, check_approval_status, hhas]
    · right; simp [promote_model, check_approval_status, hhas]
  · intro approvals reg m
    by_cases happ : (approvals.lookup (m.plant_id ++ ":" ++ m.model_name ++ ":" ++ m.version)).getD
        "pending" = "approved"
    · have hchk : check_approval_status (some approvals) m.plant_id m.model_name m.version
          = true := by
        simp [check_approval_status, happ]
      by_cases hhas : registry_has reg m.model_name m.version
      · simp [promote_model, hchk, hhas, happ]
      · simp [promote_model, hchk, hhas, happ]
    · have hchk : check_approval_status (some approvals) m.plant_id m.model_name m.version
          = false := by
        by_cases hrej : (approvals.lookup
            (m.plant_id ++ ":" ++ m.model_name ++ ":" ++ m.version)).getD "pending" = "rejected"
        · simp [check_approval_status, happ, hrej]
        · simp [check_approval_status, happ, hrej]
      simp [promote_model, hchk, happ]
  · intro approval_file reg m hpend
    by_cases hchk : check_approval_status approval_file m.plant_id m.model_name m.version
    · exfalso
      by_cases hhas : registry_has reg m.model_name m.version
      · rw [promote_model] at hpend
        simp [hchk, hhas] at hpend
      · rw [promote_model] at hpend
        simp [hchk, hhas] at hpend
    · simp [promote_model, hchk]

/-- C10 amended witness: a pending key leaves the registry untouched. -/
theorem approval_policy_characterization_witness :
    (promote_model (some [("P1:m1:1", "pending")]) ⟨[]⟩
        ⟨"m1", "1", "P1", "C1", "2025-01-01", some "h"⟩).2 = ⟨[]⟩ :=
  approval_policy_characterization.2.2.2 (some [("P1:m1:1", "pending")]) ⟨[]⟩
    ⟨"m1", "1", "P1", "C1", "2025-01-01", some "h"⟩ (by decide)

/-! ### Claim C9: batch exit status -/

/-- C9 counterexample: a batch where job `a` completes and job `b` fails —
one unit failed, yet the monitor stage's exit code is 0, refuting "nonzero
exit when at least one unit failed". -/
theorem monitor_exit_zero_despite_failure :
    monitor_main
        (fun _ j => if j = "a" then PollOutcome.status "Completed"
          else PollOutcome.status "Failed")
        ["a", "b"] 30 3 5 = some (⟨["a"], ["b"], [], 1, 0⟩, 0) ∧
    (["b"] : List String) ≠ [] := by
  exact ⟨rfl, by decide⟩

/-- A circuit batch in which every circuit's files are present never raises
the failure flag. -/
lemma register_fold_flag_ok (digest : String → String) (files : String → CircuitFiles) :
    ∀ (circuits : List CircuitCfg) (acc : List ChangedCircuit × DataRegistry × Bool),
      (∀ c ∈ circuits, (files (data_name_for c)).configExists = true ∧
        (files (data_name_for c)).mltableExists = true) →
      acc.2.2 = false →
      (circuits.foldl (register_fold_step digest files) acc).2.2 = false := by
  intro circuits
  induction circuits with
  | nil => intro acc _ h; exact h
  | cons c rest ih =>
    intro acc hgood hacc
    rw [List.foldl_cons]
    apply ih _ (fun d hd => hgood d (List.mem_cons_of_mem _ hd))
    obtain ⟨hcfg, hml⟩ := hgood c (List.mem_cons_self _ _)
    simp [register_fold_step, hacc,
      register_circuit_ok_no_flag digest files acc.2.1 c hcfg hml]

/-- C9 (amended): the registration stage's exit status does reflect
per-unit failure — it exits 1 when any circuit's registration fails and 0
when every circuit's files are present — and the monitor stage persists the
full partition (every successful unit included) to its output regardless of
its exit code; but the monitor's exit code is 0 exactly when at least one
job completed or nothing failed or timed out, so a batch with both
completions and failures exits 0. -/
theorem batch_exit_status_characterization :
    (∀ r : MonitorResult, monitor_main_exit r = 0 ↔
      (r.completed ≠ [] ∨ (r.failed = [] ∧ r.timeoutJobs = []))) ∧
    (∀ (env : MonitorEnv) (jobs : List String) (pollInterval maxWaitHours fuel : Nat)
      (out : MonitorResult) (code : Nat),
      monitor_main env jobs pollInterval maxWaitHours fuel = some (out, code) →
      monitor_training_jobs env jobs pollInterval maxWaitHours fuel = some out ∧
        code = monitor_main_exit out) ∧
    (∀ (digest : String → String) (files : String → CircuitFiles)
      (circuits : List CircuitCfg) (reg : DataRegistry) (c : CircuitCfg),
      c ∈ circuits → (files (data_name_for c)).configExists = false →
      detect_changed_circuits_main_exit (register_mltables digest files circuits reg) = 1) ∧
    (∀ (digest : String → String) (files : String → CircuitFiles)
      (circuits : List CircuitCfg) (reg : DataRegistry),
      (∀ c ∈ circuits, (files (data_name_for c)).configExists = true ∧
        (files (data_name_for c)).mltableExists = true) →
      detect_changed_circuits_main_exit (register_mltables digest files circuits reg) = 0) := by
  refine ⟨?_, ?_, ?_, ?_⟩
  · intro r
    cases hc : r.completed with
    | nil => cases hf : r.failed <;> cases ht : r.timeoutJobs <;>
        simp [monitor_main_exit, hc, hf, ht]
    | cons a l => simp [monitor_main_exit, hc]
  · intro env jobs pollInterval maxWaitHours fuel out code h
    rw [monitor_main] at h
    cases hm : monitor_training_jobs env jobs pollInterval maxWaitHours fuel with
    | none => rw [hm] at h; cases h
    | some r =>
      rw [hm] at h
      simp only [Option.map_some'] at h
      obtain ⟨h1, h2⟩ := Prod.ext_iff.mp (Option.some.inj h)
      simp only at h1 h2
      subst h1
      subst h2
      exact ⟨rfl, rfl⟩
  · intro digest files circuits reg c hc hmiss
    have hflag := register_fold_flag_of_missing_config digest files circuits c hc hmiss
      (([] : List ChangedCircuit), reg, false)
    simp [register_mltables, hflag, detect_changed_circuits_main_exit]
  · intro digest files circuits reg hgood
    have hflag := register_fold_flag_ok digest files circuits
      (([] : List ChangedCircuit), reg, false) hgood rfl
    simp [register_mltables, hflag, detect_changed_circuits_main_exit]

/-- C9 amended witness: a partition with one completion and one failure has
monitor exit code 0. -/
theorem batch_exit_status_characterization_witness :
    monitor_main_exit ⟨["a"], ["b"], [], 1, 0⟩ = 0 :=
  (batch_exit_status_characterization.1 ⟨["a"], ["b"], [], 1, 0⟩).mpr (Or.inl (by decide))

end SensorPredictions
